import Mathlib

/-!
Verification of the reconciliation logic of `library/sensu_go_check.py`
(`run_module`, lines 275-396).

The module is a declarative CRUD reconciler for a Sensu Go check resource.
We embed the value space handled by the module (the argument spec only admits
scalars, string lists and string-to-string dicts), the truthy-key projection
performed before the update comparison (lines 366-370), the branch structure
on intent (`state`) and HTTP status (404 / 200 / other), the metadata
validation (lines 334-351), and the sequence of network calls
(`auth`, `get_resource`, `post_resource`, `put_resource`, `delete_resource`).

The generated desired definition (`create_check_definition`, provided by the
`SensuGo` module_utils helper that is not part of the sources) is treated as
an input `check_def : Dict` of the reconciler, exactly as `run_module`
receives it at line 355.
-/

set_option autoImplicit false

namespace SensuGoCheck

/-- A JSON-ish value as handled by the module's argument spec: every list
option is declared with `elements='str'` and metadata entries are validated
to be string-to-string, so scalars, string lists and string dicts cover the
value space of a check definition. -/
inductive Value where
  | vnone
  | vstr (s : String)
  | vint (n : Int)
  | vbool (b : Bool)
  | vlist (l : List String)
  | vdict (d : List (String × String))
  deriving DecidableEq, Repr

/-- Python truthiness (`if v:`): `None`, `""`, `0`, `False`, `[]`, `{}` are
falsy, everything else truthy. Used by the set comprehension at line 366. -/
def Value.truthy : Value → Bool
  | .vnone => false
  | .vstr s => !(s == "")
  | .vint n => !(n == 0)
  | .vbool b => b
  | .vlist l => !l.isEmpty
  | .vdict d => !d.isEmpty

/-- Python isinstance-str test (lines 338, 341, 347, 350). -/
def Value.isStr : Value → Bool
  | .vstr _ => true
  | _ => false

/-- Python `str()` of a value, as interpolated into the validation failure
messages by `.format(...)`. -/
def Value.pyStr : Value → String
  | .vnone => "None"
  | .vstr s => s
  | .vint n => toString n
  | .vbool b => cond b "True" "False"
  | .vlist l =>
      "[" ++ String.intercalate ", " (l.map (fun s => "\x27" ++ s ++ "\x27")) ++ "]"
  | .vdict d =>
      "\x7b" ++ String.intercalate ", "
        (d.map (fun kv => "\x27" ++ kv.1 ++ "\x27: \x27" ++ kv.2 ++ "\x27")) ++ "\x7d"

/-- A Python dict with string keys, as an association list (keys unique in
any dict produced by the module or the API). -/
abbrev Dict := List (String × Value)

/-- Key lookup (`d[k]` / `k in d`): first matching entry. -/
def dictLookup (d : Dict) (k : String) : Option Value :=
  match d with
  | [] => none
  | (k', v) :: rest => if k' = k then some v else dictLookup rest k

/-- Python dict equality (`response != check_def`, line 371): same keys and
the same value at every key, independent of insertion order. -/
def dictEqb (a b : Dict) : Bool :=
  (a.map Prod.fst).all (fun k => decide (dictLookup a k = dictLookup b k)) &&
  (b.map Prod.fst).all (fun k => decide (dictLookup b k = dictLookup a k))

/-- Lines 366-370: `check_def_with_values = {k for k, v in check_def.items() if v}`,
`keys_to_remove = {k for k in check_def_with_values if k not in response}`,
then each such key is deleted from `check_def`. An entry survives unless its
value is truthy and its key is absent from `response`. -/
def project_check_def (check_def response : Dict) : Dict :=
  check_def.filter (fun kv => !(kv.2.truthy && (dictLookup response kv.1).isNone))

/-- The `state` module parameter (choices `present` / `absent`). -/
inductive ModState where
  | present
  | absent
  deriving DecidableEq, Repr

/-- A write call issued by the reconciler. -/
inductive WriteCall where
  | post_resource (body : Dict)
  | put_resource (body : Dict)
  | delete_resource
  deriving DecidableEq, Repr

/-- A network call issued during the invocation, in order. -/
inductive NetCall where
  | auth
  | get_resource
  | write (w : WriteCall)
  deriving DecidableEq, Repr

/-- The `result` dict passed to `exit_json`: `check_definition` and `diff`
are `Option` because the corresponding keys may be absent from the dict. -/
structure ModuleResult where
  changed : Bool
  message : String
  check_definition : Option Dict
  diff : Option (Dict × Dict)
  deriving DecidableEq, Repr

/-- The metadata suboptions as processed by the argument spec: each of
`annotations` / `labels` is either `None` or a dict whose keys and values
are arbitrary values (their stringness is what lines 334-351 validate). -/
structure Metadata where
  annotations : Option (List (Value × Value))
  labels : Option (List (Value × Value))
  deriving DecidableEq, Repr

/-- The module parameters relevant to validation and branching. -/
structure Params where
  state : ModState
  name : String
  cron : Option String
  interval : Option Int
  metadata : Option Metadata
  check_mode : Bool
  deriving DecidableEq, Repr

/-- First offending entry of an annotations/labels dict, with the message
format of lines 339/342/348/351: all keys are scanned first, then all
values. -/
def first_bad (l : List (Value × Value)) (what : String) : Option String :=
  match (l.map Prod.fst).find? (fun k => !k.isStr) with
  | some k => some ("Metadata " ++ what ++ " key " ++ k.pyStr ++ " is not a string")
  | none =>
    match (l.map Prod.snd).find? (fun v => !v.isStr) with
    | some v => some ("Metadata " ++ what ++ " value " ++ v.pyStr ++ " is not a string")
    | none => none

/-- Lines 334-351: the Sensu-check-specific validation run before
`module.auth()`: annotations are checked before labels, and a failure calls
`fail_json` immediately. -/
def validate_metadata : Option Metadata → Option String
  | none => none
  | some m =>
    match m.annotations with
    | some ann =>
      match first_bad ann "annotations" with
      | some msg => some msg
      | none =>
        match m.labels with
        | some lab => first_bad lab "labels"
        | none => none
    | none =>
      match m.labels with
      | some lab => first_bad lab "labels"
      | none => none

/-- Modelled from the spec: `mutually_exclusive=[['interval', 'cron']]` is
handed to the `SensuGo` constructor (line 331) and enforced by the host
framework's `AnsibleModule` constructor — code not present under the
sources — which fails the invocation before any network traffic when both
options are set. -/
def constructor_check (p : Params) : Option String :=
  if p.interval.isSome && p.cron.isSome then
    some "parameters are mutually exclusive: interval|cron"
  else none

/-- Lines 353-396: the reconciliation logic after validation and `auth()`.
`check_def` is the desired definition built by `create_check_definition`,
`response`/`status` the body and HTTP status of the `get_resource` call,
`check_mode` Ansible's dry-run flag. Returns the `result` dict passed to
`exit_json` together with the write calls issued, in order. In the
status-200 branch `result['check_definition']` and `diff['after']` alias the
mutated `check_def`, so both hold the projected definition. -/
def reconcile (st : ModState) (name : String) (check_def response : Dict)
    (status : Nat) (check_mode : Bool) : ModuleResult × List WriteCall :=
  match st with
  | .present =>
    if status = 404 then
      if check_mode then
        ({ changed := true,
           message := "Would have created new Sensu Go check: " ++ name,
           check_definition := some check_def, diff := none }, [])
      else
        ({ changed := true,
           message := "Created new Sensu Go check: " ++ name,
           check_definition := some check_def, diff := none },
         [WriteCall.post_resource check_def])
    else if status = 200 then
      let cd := project_check_def check_def response
      if !(dictEqb response cd) then
        if check_mode then
          ({ changed := true,
             message := "Would have updated Sensu Go check: " ++ name,
             check_definition := some cd, diff := some (response, cd) }, [])
        else
          ({ changed := true,
             message := "Updated existing Sensu Go check: " ++ name,
             check_definition := some cd, diff := some (response, cd) },
           [WriteCall.put_resource cd])
      else
        ({ changed := false,
           message := "Sensu Go check already exists and doesn\x27t need to be updated: " ++ name,
           check_definition := some cd, diff := none }, [])
    else
      ({ changed := false, message := "",
         check_definition := some check_def, diff := none }, [])
  | .absent =>
    if status = 404 then
      ({ changed := false,
         message := "Sensu Go check does not exist: " ++ name,
         check_definition := none, diff := none }, [])
    else if status = 200 then
      if check_mode then
        ({ changed := true,
           message := "Would have deleted Sensu Go check: " ++ name,
           check_definition := none, diff := none }, [])
      else
        ({ changed := true,
           message := "Deleted Sensu Go check: " ++ name,
           check_definition := none, diff := none },
         [WriteCall.delete_resource])
    else
      ({ changed := false, message := "",
         check_definition := none, diff := none }, [])

/-- The whole of `run_module`: constructor-time option checks, the metadata
validation of lines 334-351, then `auth()` (line 352), `get_resource` and
the reconciliation. The first component is `Except.error msg` when
`fail_json(msg)` terminates the run, `Except.ok result` when `exit_json`
reports success; the second component records every network call issued. -/
def run_module (p : Params) (check_def response : Dict) (status : Nat) :
    Except String ModuleResult × List NetCall :=
  match constructor_check p with
  | some msg => (Except.error msg, [])
  | none =>
    match validate_metadata p.metadata with
    | some msg => (Except.error msg, [])
    | none =>
      let (res, writes) := reconcile p.state p.name check_def response status p.check_mode
      (Except.ok res, [NetCall.auth, NetCall.get_resource] ++ writes.map NetCall.write)

/-- An annotations/labels dict (when present) holding a non-string key or a
non-string value somewhere. -/
def has_non_string_entry : Option (List (Value × Value)) → Prop
  | none => False
  | some l => ∃ kv ∈ l, kv.1.isStr = false ∨ kv.2.isStr = false

/-- A desired definition used as concrete input. -/
def cdDemo : Dict := [("command", Value.vstr "echo ok"), ("interval", Value.vint 60)]

/-- Valid parameters: state=present, interval set, cron unset, no metadata. -/
def pDemo : Params :=
  { state := ModState.present, name := "demo", cron := none,
    interval := some 60, metadata := none, check_mode := false }

/-- Desired definition with a falsy-valued key (`interval = 0`). -/
def cdFalsy : Dict := [("command", Value.vstr "echo ok"), ("interval", Value.vint 0)]

/-- Remote definition lacking the falsy key but agreeing on the truthy one. -/
def rFalsy : Dict := [("command", Value.vstr "echo ok")]

/-- The spec's example desired definition
`{name: "c1", command: "echo ok", interval: 60, subscriptions: ["all"]}`. -/
def cdExample : Dict :=
  [("name", Value.vstr "c1"), ("command", Value.vstr "echo ok"),
   ("interval", Value.vint 60), ("subscriptions", Value.vlist ["all"])]

/-- The spec's example remote definition
`{interval: 30, command: "echo ok", subscriptions: ["all"]}`. -/
def rExample : Dict :=
  [("interval", Value.vint 30), ("command", Value.vstr "echo ok"),
   ("subscriptions", Value.vlist ["all"])]

/-- Metadata with an integer annotations key. -/
def mBad : Metadata := { annotations := some [(Value.vint 1, Value.vstr "x")], labels := none }

/-- Parameters carrying the invalid metadata. -/
def pBadMeta : Params :=
  { state := ModState.present, name := "demo", cron := none,
    interval := none, metadata := some mBad, check_mode := false }

section Lemmas

/-- A key of an entry of a dict always looks up to something. -/
theorem dictLookup_isSome_of_mem (d : Dict) (k : String) (v : Value)
    (h : (k, v) ∈ d) : (dictLookup d k).isSome = true := by
  induction d with
  | nil => cases h
  | cons kv rest ih =>
    rcases List.mem_cons.mp h with h | h
    · simp [dictLookup, ← h]
    · by_cases hk : kv.1 = k
      · simp [dictLookup, hk]
      · simpa [dictLookup, hk] using ih h

/-- Projecting a definition against itself removes nothing. -/
theorem project_check_def_self (d : Dict) : project_check_def d d = d := by
  apply List.filter_eq_self.mpr
  intro kv hkv
  have hs : (dictLookup d kv.1).isSome = true :=
    dictLookup_isSome_of_mem d kv.1 kv.2 hkv
  rcases Option.isSome_iff_exists.mp hs with ⟨w, hw⟩
  simp [hw]

/-- Python dict equality is reflexive. -/
theorem dictEqb_refl (d : Dict) : dictEqb d d = true := by
  simp [dictEqb, List.all_eq_true]

/-- If `first_bad` reports nothing, every key and value is a string. -/
theorem first_bad_none_sound (l : List (Value × Value)) (what : String)
    (h : first_bad l what = none) :
    ∀ kv ∈ l, kv.1.isStr = true ∧ kv.2.isStr = true := by
  intro kv hkv
  unfold first_bad at h
  rcases hfk : (l.map Prod.fst).find? (fun k => !k.isStr) with _ | k
  · rcases hfv : (l.map Prod.snd).find? (fun v => !v.isStr) with _ | v
    · have h1 := List.find?_eq_none.mp hfk kv.1 (List.mem_map_of_mem Prod.fst hkv)
      have h2 := List.find?_eq_none.mp hfv kv.2 (List.mem_map_of_mem Prod.snd hkv)
      constructor
      · simpa using h1
      · simpa using h2
    · rw [hfk, hfv] at h
      simp at h
  · rw [hfk] at h
    simp at h

/-- A dict all of whose keys and values are strings has no non-string entry. -/
theorem not_bad_of_first_bad_none (l : List (Value × Value)) (what : String)
    (h : first_bad l what = none) : ¬ has_non_string_entry (some l) := by
  rintro ⟨kv, hkv, hbad⟩
  rcases first_bad_none_sound l what h kv hkv with ⟨h1, h2⟩
  rcases hbad with hb | hb
  · rw [h1] at hb; cases hb
  · rw [h2] at hb; cases hb

/-- If validation passes on present metadata, neither annotations nor labels
hold a non-string entry. -/
theorem validate_metadata_none_sound (m : Metadata)
    (h : validate_metadata (some m) = none) :
    ¬ has_non_string_entry m.annotations ∧ ¬ has_non_string_entry m.labels := by
  obtain ⟨maybeAnn, maybeLab⟩ := m
  rcases maybeAnn with _ | ann
  · rcases maybeLab with _ | lab
    · simp [has_non_string_entry]
    · simp only [validate_metadata] at h
      exact ⟨by simp [has_non_string_entry], not_bad_of_first_bad_none lab "labels" h⟩
  · rcases hfb : first_bad ann "annotations" with _ | msg
    · rcases maybeLab with _ | lab
      · exact ⟨not_bad_of_first_bad_none ann "annotations" hfb,
               by simp [has_non_string_entry]⟩
      · simp only [validate_metadata, hfb] at h
        exact ⟨not_bad_of_first_bad_none ann "annotations" hfb,
               not_bad_of_first_bad_none lab "labels" h⟩
    · simp [validate_metadata, hfb] at h

end Lemmas

/-- Claim C1: the claim says that a GET status outside 200 and 404 makes the
invocation terminate with a fatal error. The code does the opposite: with
state=present and a GET status of 500, neither status branch of run_module
fires and control falls through to exit_json, reporting success with
changed=false, an empty message and no write call. This evaluation exhibits
that silently-successful run. -/
theorem C1_unexpected_status_silent_success :
    run_module pDemo cdDemo [] 500 =
      (Except.ok { changed := false, message := "",
                   check_definition := some cdDemo, diff := none },
       [NetCall.auth, NetCall.get_resource]) := rfl

/-- Claim C2, counterexample: the claim says every falsy-valued desired key
is excluded from the compared projection. With the desired definition
containing the falsy entry interval=0 and a remote lacking that key, the
falsy entry survives the projection (only truthy keys missing from the
remote are removed), and it alone drives the comparison to report a needed
update even though the single truthy key agrees with the remote. -/
theorem C2_counterexample :
    (Value.vint 0).truthy = false
    ∧ dictLookup (project_check_def cdFalsy rFalsy) "interval" = some (Value.vint 0)
    ∧ (reconcile ModState.present "demo" cdFalsy rFalsy 200 false).1.changed = true
    ∧ dictLookup rFalsy "command" = dictLookup cdFalsy "command" := by decide

/-- Claim C2, amended: an entry of the desired definition survives into the
compared projection exactly when it is not both truthy-valued and missing
from the remote definition; in particular falsy-valued desired entries are
always retained, and the update decision compares the full remote definition
against this projected desired definition. -/
theorem C2_amended (name : String) (cm : Bool) (cd r : Dict) (k : String) (v : Value) :
    ((k, v) ∈ project_check_def cd r ↔
      ((k, v) ∈ cd ∧ ¬(v.truthy = true ∧ dictLookup r k = none)))
    ∧ (reconcile ModState.present name cd r 200 cm).1.changed
        = !(dictEqb r (project_check_def cd r)) := by
  constructor
  · rw [project_check_def, List.mem_filter]
    constructor
    · rintro ⟨hm, hp⟩
      refine ⟨hm, ?_⟩
      rintro ⟨ht, hn⟩
      rw [ht, hn] at hp
      simp at hp
    · rintro ⟨hm, hnot⟩
      refine ⟨hm, ?_⟩
      by_cases ht : v.truthy = true
      · rcases h0 : dictLookup r k with _ | w
        · exact absurd ⟨ht, h0⟩ hnot
        · simp [ht, h0]
      · rw [Bool.not_eq_true] at ht
        simp [ht]
  · cases hq : dictEqb r (project_check_def cd r) <;> cases cm <;>
      simp [reconcile, hq]

/-- Claim C3, counterexample: for the spec's example (desired interval 60
against remote interval 30, all other compared attributes equal) the claim
says the diff maps only the changed attribute. The code instead stores the
whole remote definition as before and the whole projected desired definition
as after, so the diff is not the single-attribute pair. -/
theorem C3_counterexample :
    (reconcile ModState.present "c1" cdExample rExample 200 false).1.diff ≠
      some ([("interval", Value.vint 30)], [("interval", Value.vint 60)]) := by decide

/-- Claim C3, amended: when the projected desired definition differs from
the remote definition, the emitted diff maps before to the entire remote
definition and after to the entire projected desired definition, changed is
true and a replace (put_resource) call with the projected definition is
issued. -/
theorem C3_amended (name : String) (cd r : Dict)
    (h : dictEqb r (project_check_def cd r) = false) :
    (reconcile ModState.present name cd r 200 false).1.diff
        = some (r, project_check_def cd r)
    ∧ (reconcile ModState.present name cd r 200 false).1.changed = true
    ∧ (reconcile ModState.present name cd r 200 false).2
        = [WriteCall.put_resource (project_check_def cd r)] := by
  simp [reconcile, h]

/-- Claim C3, witness for the amended theorem at the spec's example inputs. -/
theorem C3_amended_witness :
    dictEqb rExample (project_check_def cdExample rExample) = false
    ∧ ((reconcile ModState.present "c1" cdExample rExample 200 false).1.diff
          = some (rExample, project_check_def cdExample rExample)
       ∧ (reconcile ModState.present "c1" cdExample rExample 200 false).1.changed = true
       ∧ (reconcile ModState.present "c1" cdExample rExample 200 false).2
          = [WriteCall.put_resource (project_check_def cdExample rExample)]) :=
  ⟨by decide, C3_amended "c1" cdExample rExample (by decide)⟩

/-- Claim C4: a diff is present in the result exactly when changed is true,
the intent is present and the GET returned 200; the create (404) and delete
paths never carry a diff, and the no-difference path carries neither a diff
nor changed=true. -/
theorem C4_diff_iff_changed_present_200 (st : ModState) (name : String)
    (cd r : Dict) (status : Nat) (cm : Bool) :
    (reconcile st name cd r status cm).1.diff.isSome = true ↔
      ((reconcile st name cd r status cm).1.changed = true
       ∧ st = ModState.present ∧ status = 200) := by
  cases st
  · by_cases h4 : status = 404
    · subst h4
      cases cm <;> simp [reconcile]
    · by_cases h2 : status = 200
      · subst h2
        cases hq : dictEqb r (project_check_def cd r) <;> cases cm <;>
          simp [reconcile, h4, hq]
      · cases cm <;> simp [reconcile, h4, h2]
  · by_cases h4 : status = 404
    · subst h4
      cases cm <;> simp [reconcile]
    · by_cases h2 : status = 200
      · subst h2
        cases cm <;> simp [reconcile, h4]
      · cases cm <;> simp [reconcile, h4, h2]

/-- Claim C5: for GET outcomes 200 and 404, a check-mode (dry-run) execution
issues no write call at all, and reports the same changed flag as the
non-check-mode execution of the same input against the same remote state. -/
theorem C5_dry_run_no_writes_same_changed (st : ModState) (name : String)
    (cd r : Dict) (status : Nat)
    (h : status = 200 ∨ status = 404) :
    (reconcile st name cd r status true).2 = []
    ∧ (reconcile st name cd r status true).1.changed
        = (reconcile st name cd r status false).1.changed := by
  rcases h with h | h <;> subst h <;> cases st <;>
    cases hq : dictEqb r (project_check_def cd r) <;> simp [reconcile, hq]

/-- Claim C5, witness at a concrete input (present, remote 404). -/
theorem C5_dry_run_witness :
    ((404 : Nat) = 200 ∨ (404 : Nat) = 404)
    ∧ ((reconcile ModState.present "demo" cdDemo [] 404 true).2 = []
       ∧ (reconcile ModState.present "demo" cdDemo [] 404 true).1.changed
           = (reconcile ModState.present "demo" cdDemo [] 404 false).1.changed) :=
  ⟨Or.inr rfl,
   C5_dry_run_no_writes_same_changed ModState.present "demo" cdDemo [] 404 (Or.inr rfl)⟩

/-- Claim C6: reconciling present against a 404 yields changed=true and a
single create (post_resource) of the desired definition; a second reconcile
of the same definition, with the remote now returning exactly the created
definition under 200, yields changed=false. -/
theorem C6_create_then_idempotent (name : String) (D r : Dict) :
    (reconcile ModState.present name D r 404 false).1.changed = true
    ∧ (reconcile ModState.present name D r 404 false).2 = [WriteCall.post_resource D]
    ∧ (reconcile ModState.present name D D 200 false).1.changed = false := by
  refine ⟨rfl, rfl, ?_⟩
  simp [reconcile, project_check_def_self, dictEqb_refl]

/-- Claim C7: reconciling absent against a 404 yields changed=false, issues
no write call, and reports the does-not-exist message. -/
theorem C7_absent_not_found_noop (name : String) (cd r : Dict) (cm : Bool) :
    (reconcile ModState.absent name cd r 404 cm).1.changed = false
    ∧ (reconcile ModState.absent name cd r 404 cm).2 = []
    ∧ (reconcile ModState.absent name cd r 404 cm).1.message
        = "Sensu Go check does not exist: " ++ name :=
  ⟨rfl, rfl, rfl⟩

/-- Claim C8: an input whose metadata annotations or labels hold a
non-string key or value, or which sets both cron and interval, makes the
invocation fail with a validation error and issue no network call at all
(in particular neither auth nor the GET happens). -/
theorem C8_validation_before_network (p : Params) (cd r : Dict) (status : Nat)
    (h : (∃ m, p.metadata = some m
            ∧ (has_non_string_entry m.annotations ∨ has_non_string_entry m.labels))
         ∨ (p.cron.isSome = true ∧ p.interval.isSome = true)) :
    (∃ msg, (run_module p cd r status).1 = Except.error msg)
    ∧ (run_module p cd r status).2 = [] := by
  rcases hcc : constructor_check p with _ | msg
  · have hme : ¬(p.interval.isSome = true ∧ p.cron.isSome = true) := by
      rintro ⟨h1, h2⟩
      simp [constructor_check, h1, h2] at hcc
    rcases h with ⟨m, hm, hbad⟩ | ⟨hc, hi⟩
    · rcases hvm : validate_metadata p.metadata with _ | msg
      · rw [hm] at hvm
        rcases validate_metadata_none_sound m hvm with ⟨ha, hl⟩
        rcases hbad with hb | hb
        · exact absurd hb ha
        · exact absurd hb hl
      · exact ⟨⟨msg, by simp [run_module, hcc, hvm]⟩, by simp [run_module, hcc, hvm]⟩
    · exact absurd ⟨hi, hc⟩ hme
  · exact ⟨⟨msg, by simp [run_module, hcc]⟩, by simp [run_module, hcc]⟩

/-- Claim C8, witness: an integer annotations key fails validation with no
network call. -/
theorem C8_validation_witness :
    ((∃ m, pBadMeta.metadata = some m
        ∧ (has_non_string_entry m.annotations ∨ has_non_string_entry m.labels))
      ∨ (pBadMeta.cron.isSome = true ∧ pBadMeta.interval.isSome = true))
    ∧ ((∃ msg, (run_module pBadMeta cdDemo [] 200).1 = Except.error msg)
       ∧ (run_module pBadMeta cdDemo [] 200).2 = []) :=
  ⟨Or.inl ⟨mBad, rfl, Or.inl ⟨(Value.vint 1, Value.vstr "x"), List.Mem.head _, Or.inl rfl⟩⟩,
   C8_validation_before_network pBadMeta cdDemo [] 200
     (Or.inl ⟨mBad, rfl, Or.inl ⟨(Value.vint 1, Value.vstr "x"), List.Mem.head _, Or.inl rfl⟩⟩)⟩

/-- Claim C9: the claim (and the module's own RETURN docs) say every
successful result carries a check_definition, for state=absent as for
state=present. The code sets check_definition only in the present branch:
both absent paths exit successfully without it, while the present path does
carry it. -/
theorem C9_absent_missing_check_definition :
    (reconcile ModState.absent "demo" cdDemo [] 404 false).1.check_definition = none
    ∧ (reconcile ModState.absent "demo" cdDemo
        [("command", Value.vstr "x")] 200 false).1.check_definition = none
    ∧ (reconcile ModState.present "demo" cdDemo [] 404 false).1.check_definition
        = some cdDemo :=
  ⟨rfl, rfl, rfl⟩

/-- Claim C10: with intent present and the remote existing (200), the
reported check_definition is the post-projection definition (the result dict
aliases the mutated check_def), and whenever a diff is emitted its after map
is exactly that reported projected definition. -/
theorem C10_reported_is_projected (name : String) (cd r : Dict) (cm : Bool) :
    (reconcile ModState.present name cd r 200 cm).1.check_definition
        = some (project_check_def cd r)
    ∧ ((reconcile ModState.present name cd r 200 cm).1.diff = none
       ∨ (reconcile ModState.present name cd r 200 cm).1.diff
           = some (r, project_check_def cd r)) := by
  cases hq : dictEqb r (project_check_def cd r) <;> cases cm <;>
    simp [reconcile, hq]

end SensuGoCheck
